import Mathlib

/-
Verification of the BOTLISTA broadcast bot (src/updated_divulgahotbot.py)
against its natural-language specification.

The script is shallowly embedded: the SQLite table `canais` becomes a list
of rows, the four persistence helpers become pure functions on that list,
the broadcast loop `enviar_mensagem_programada` becomes a recursion over
the snapshot of rows returned by `get_canais`, and the transport
(`bot.send_message`) becomes an oracle returning `Except` (exception or
success) per chat id.  Dates are the `"%Y-%m-%d"` strings the script
manipulates; for such fixed-length ISO strings, lexicographic string order
coincides with calendar order.
-/

set_option autoImplicit false

namespace BotLista

/-- A row of the `canais` table:
`chat_id INTEGER PRIMARY KEY, last_interaction_date TEXT` (nullable). -/
structure Canal where
  chat_id : Int
  last_interaction_date : Option String
  deriving Repr, DecidableEq

/-- The `canais` table, as the list of its rows. -/
abbrev DB := List Canal

/-- Well-formedness enforced by SQLite's PRIMARY KEY constraint on `chat_id`:
all rows carry pairwise-distinct chat ids. -/
def DBWF (db : DB) : Prop := (db.map Canal.chat_id).Nodup

instance decidableDBWF (db : DB) : Decidable (DBWF db) :=
  inferInstanceAs (Decidable ((db.map Canal.chat_id).Nodup))

/-- Embeds `get_last_interaction_date`: `SELECT last_interaction_date FROM canais
WHERE chat_id = ?` followed by `result[0] if result else None`.  Returns
`none` both for a missing row and for a row whose date column is NULL,
exactly as the Python does. -/
def get_last_interaction_date (db : DB) (canal_id : Int) : Option String :=
  match db.find? (fun c => c.chat_id == canal_id) with
  | some c => c.last_interaction_date
  | none => none

/-- Embeds `update_last_interaction_date`: `UPDATE canais SET last_interaction_date
= ? WHERE chat_id = ?`.  An UPDATE touches exactly the rows matched by the
WHERE clause and inserts nothing. -/
def update_last_interaction_date (db : DB) (canal_id : Int) (date : String) : DB :=
  db.map (fun c =>
    if c.chat_id = canal_id then { c with last_interaction_date := some date } else c)

/-- Embeds `add_canal`: `INSERT OR IGNORE INTO canais (chat_id) VALUES (?)`.
The OR IGNORE clause makes the insert a no-op when the primary key is
already present; a fresh row has a NULL date column. -/
def add_canal (db : DB) (chat_id : Int) : DB :=
  if db.any (fun c => c.chat_id == chat_id) then db
  else db ++ [{ chat_id := chat_id, last_interaction_date := none }]

/-- Embeds `get_canais`: `SELECT * FROM canais`. -/
def get_canais (db : DB) : List Canal := db

/-- The wall clock at the moment a dispatcher run executes, described by the
two date strings the process could format: `systemLocalDate` is what naive
`datetime.now().strftime("%Y-%m-%d")` yields (the host system's local
calendar date), `saoPauloDate` is what
`datetime.now(brasilia_tz).strftime("%Y-%m-%d")` would yield (the
America/Sao_Paulo calendar date).  The two differ whenever the host's local
timezone is on the other side of midnight from Sao Paulo. -/
structure Clock where
  systemLocalDate : String
  saoPauloDate : String
  deriving Repr, DecidableEq

/-- Line 136 of the source: `today = datetime.now().strftime("%Y-%m-%d")`.
`datetime.now()` is called without a tzinfo argument, so it reads the host
system's local clock, not the `brasilia_tz` object defined at line 42
(which is only ever passed to the scheduler's cron jobs). -/
def dispatcherToday (clk : Clock) : String := clk.systemLocalDate

/-- The messaging transport: `bot.send_message` for a given chat either
returns normally or raises (modelled as `Except.error` with the message of
the raised exception).  The message text is a fixed constant in every call
site and never influences control flow, so the oracle is keyed by chat id
only. -/
def Transport : Type := Int → Except String Unit

/-- Whether the transport send for `chat_id` returns without raising. -/
def sendOk (transport : Transport) (chat_id : Int) : Bool :=
  match transport chat_id with
  | Except.ok _ => true
  | Except.error _ => false

/-- The `for canal in canais:` loop body of `enviar_mensagem_programada`
(lines 131-154), processing the remaining snapshot rows against the live
table.  For each row: re-read its stored date from the live table, skip it
when that date equals `today`, otherwise call the transport inside
`try/except` — on success write `today` back, on exception log and keep
going.  The returned list records, in order, the chat ids for which
`bot.send_message` was actually called.  (`today` is recomputed inside the
loop from the same clock, hence constant across one run; the 5s/10s sleeps
carry no state.) -/
def broadcast_loop (today : String) (transport : Transport) :
    List Canal → DB → DB × List Int
  | [], db => (db, [])
  | canal :: rest, db =>
    if get_last_interaction_date db canal.chat_id = some today then
      broadcast_loop today transport rest db
    else
      match transport canal.chat_id with
      | Except.ok _ =>
        let r := broadcast_loop today transport rest
          (update_last_interaction_date db canal.chat_id today)
        (r.1, canal.chat_id :: r.2)
      | Except.error _ =>
        let r := broadcast_loop today transport rest db
        (r.1, canal.chat_id :: r.2)

/-- Embeds `enviar_mensagem_programada(bot)`: snapshot the rows, then run the loop. -/
def enviar_mensagem_programada (clk : Clock) (transport : Transport) (db : DB) :
    DB × List Int :=
  broadcast_loop (dispatcherToday clk) transport (get_canais db) db

/-- The same loop embedded as a possibly-raising computation: every
transport call may raise, and the source wraps each one in `try/except`,
which is the `match` below; an exception escaping the loop would surface as
`Except.error`. -/
def broadcast_loopE (today : String) (transport : Transport) :
    List Canal → DB → Except String (DB × List Int)
  | [], db => Except.ok (db, [])
  | canal :: rest, db =>
    if get_last_interaction_date db canal.chat_id = some today then
      broadcast_loopE today transport rest db
    else
      match transport canal.chat_id with
      | Except.ok _ =>
        match broadcast_loopE today transport rest
            (update_last_interaction_date db canal.chat_id today) with
        | Except.ok r => Except.ok (r.1, canal.chat_id :: r.2)
        | Except.error e => Except.error e
      | Except.error _ =>
        match broadcast_loopE today transport rest db with
        | Except.ok r => Except.ok (r.1, canal.chat_id :: r.2)
        | Except.error e => Except.error e

/-- Embeds `enviar_mensagem_programada` as a possibly-raising computation. -/
def enviar_mensagem_programadaE (clk : Clock) (transport : Transport) (db : DB) :
    Except String (DB × List Int) :=
  broadcast_loopE (dispatcherToday clk) transport (get_canais db) db

/-- Observable outcome of the welcome flow: final table state, chat ids to
which a welcome `send_message` call was issued, and chat ids passed to
`add_canal`. -/
structure WelcomeResult where
  db : DB
  sends : List Int
  registered : List Int
  deriving Repr, DecidableEq

/-- Embeds `send_welcome_message` (lines 109-126): inside one `try`, send the
welcome text, then register the channel; on exception only log.  The
`add_canal` call sits after the send inside the same `try`, so a raising
send skips registration. -/
def send_welcome_message (transport : Transport) (db : DB) (chat_id : Int) :
    WelcomeResult :=
  match transport chat_id with
  | Except.ok _ =>
    { db := add_canal db chat_id, sends := [chat_id], registered := [chat_id] }
  | Except.error _ =>
    { db := db, sends := [chat_id], registered := [] }

/-- A chat-membership-change update as the handler reads it:
`update.chat.id`, `new_chat_member.user.id`, `old_chat_member.status` and
`new_chat_member.status`. -/
structure ChatMemberEvent where
  chat_id : Int
  subject_user_id : Int
  old_status : String
  new_status : String
  deriving Repr, DecidableEq

/-- Embeds `on_chat_member_update` (lines 98-106): when the changed member is the
bot itself and its NEW status is "administrator" or "creator", run the
welcome flow; in every other case fall through with no side effect.  The
handler never reads `old_chat_member`, so the old status cannot influence
the outcome. -/
def on_chat_member_update (bot_id : Int) (transport : Transport) (db : DB)
    (ev : ChatMemberEvent) : WelcomeResult :=
  if ev.subject_user_id = bot_id then
    if ev.new_status = "administrator" ∨ ev.new_status = "creator" then
      send_welcome_message transport db ev.chat_id
    else { db := db, sends := [], registered := [] }
  else { db := db, sends := [], registered := [] }

/-- Process configuration read at startup: `BOT_TOKEN = os.getenv(...)`
(absent or a string) and `ADMIN_ID = int(os.getenv(...))`. -/
structure Config where
  bot_token : Option String
  admin_id : Int
  deriving Repr, DecidableEq

/-- Python truthiness of the token: `not BOT_TOKEN` holds when the variable
is unset or the empty string. -/
def token_truthy : Option String → Bool
  | none => false
  | some s => !s.isEmpty

/-- Line 37: `if not BOT_TOKEN or not ADMIN_ID: ... exit(1)` — the only
place `ADMIN_ID` is ever read after its assignment. -/
def configOk (cfg : Config) : Bool :=
  token_truthy cfg.bot_token && decide (cfg.admin_id ≠ 0)

/-- An externally-triggered unit of work: a chat-membership update handled
by `on_chat_member_update`, or a scheduled firing of
`enviar_mensagem_programada` at some wall-clock moment. -/
inductive SysEvent where
  | member (ev : ChatMemberEvent)
  | broadcast (clk : Clock)

/-- Observable process state: the table plus the cumulative list of chat
ids sent to (welcome and broadcast sends alike, in order). -/
structure SysState where
  db : DB
  sent_messages : List Int

/-- Dispatch of one event by the running process. -/
def sysStep (bot_id : Int) (transport : Transport) (st : SysState) :
    SysEvent → SysState
  | SysEvent.member ev =>
    let r := on_chat_member_update bot_id transport st.db ev
    { db := r.db, sent_messages := st.sent_messages ++ r.sends }
  | SysEvent.broadcast clk =>
    let r := enviar_mensagem_programada clk transport st.db
    { db := r.1, sent_messages := st.sent_messages ++ r.2 }

/-- The whole process: abort at startup unless the configuration check
passes, then handle events one by one.  After line 37 the value of
`ADMIN_ID` appears nowhere else in the script, so no step receives it. -/
def runSystem (cfg : Config) (bot_id : Int) (transport : Transport) (db0 : DB)
    (events : List SysEvent) : Option SysState :=
  if configOk cfg then
    some (events.foldl (sysStep bot_id transport) { db := db0, sent_messages := [] })
  else none

/-- Whether a row passes the once-per-day gate of line 137: the run calls
the transport for a row exactly when its stored date differs from `today`
(NULL and missing count as different). -/
def eligibleB (today : String) (c : Canal) : Bool :=
  decide (c.last_interaction_date ≠ some today)

/-- Per-row effect of one dispatcher run (proved below to be its exact
behaviour): a row that passed the gate and whose send succeeded gets
`today` written to its date column; every other row is untouched. -/
def runRow (today : String) (transport : Transport) (c : Canal) : Canal :=
  if c.last_interaction_date ≠ some today ∧ sendOk transport c.chat_id then
    { c with last_interaction_date := some today }
  else c

/-- Strict lexicographic order on character lists.  For the fixed-length
`"%Y-%m-%d"` date strings the program manipulates, lexicographic order on
the characters coincides with calendar order on the dates. -/
def dateLtB : List Char → List Char → Bool
  | [], [] => false
  | [], _ :: _ => true
  | _ :: _, [] => false
  | a :: as, b :: bs => if a < b then true else if a = b then dateLtB as bs else false

/-- Strict calendar order on date strings. -/
def dateLt (d t : String) : Bool := dateLtB d.data t.data

/-- The spec's eligibility predicate, in the spec's words: stored date
absent or strictly less than today (in calendar order). -/
def specEligible (today : String) : Option String → Bool
  | none => true
  | some d => dateLt d today

/-- The spec's data-model invariant, in the spec's words: a stored date is
never in the future relative to process time (strictly before today, or
today itself). -/
def notFutureDate (today : String) : Option String → Bool
  | none => true
  | some d => dateLt d today || d == today

/-- Concrete transport oracle on which every send returns normally. -/
def okTransport : Transport := fun _ => Except.ok ()

/-- Concrete transport oracle on which sending to `bad` raises and every
other send returns normally. -/
def failTransport (bad : Int) : Transport :=
  fun i => if i = bad then Except.error "network error" else Except.ok ()

/-- Lexicographic order is irreflexive. -/
theorem dateLtB_irrefl : ∀ l : List Char, dateLtB l l = false
  | [] => rfl
  | a :: as => by
    rw [dateLtB]
    simp [lt_irrefl, dateLtB_irrefl as]

/-- Strict calendar order on equal dates never holds. -/
theorem dateLt_irrefl (d : String) : dateLt d d = false := by
  rw [dateLt]
  exact dateLtB_irrefl d.data

/-- Function `runRow` never changes the primary key of a row. -/
theorem runRow_chat_id (today : String) (tr : Transport) (c : Canal) :
    (runRow today tr c).chat_id = c.chat_id := by
  unfold runRow; split <;> rfl

/-- Unfolding the lookup one row at a time. -/
theorem get_last_cons (c : Canal) (db : DB) (x : Int) :
    get_last_interaction_date (c :: db) x =
      if c.chat_id = x then c.last_interaction_date else get_last_interaction_date db x := by
  by_cases h : c.chat_id = x
  · simp [get_last_interaction_date, List.find?_cons_of_pos, h]
  · simp [get_last_interaction_date, List.find?_cons_of_neg, h]

/-- Unfolding the UPDATE one row at a time. -/
theorem update_cons (c : Canal) (db : DB) (id : Int) (d : String) :
    update_last_interaction_date (c :: db) id d =
      (if c.chat_id = id then { c with last_interaction_date := some d } else c) ::
        update_last_interaction_date db id d := rfl

/-- An UPDATE targeting `id` leaves the lookup of any other key unchanged. -/
theorem get_update_ne (db : DB) (id x : Int) (d : String) (h : x ≠ id) :
    get_last_interaction_date (update_last_interaction_date db id d) x =
      get_last_interaction_date db x := by
  unfold get_last_interaction_date update_last_interaction_date
  rw [List.find?_map]
  have hpred : ((fun c : Canal => c.chat_id == x) ∘
      (fun c : Canal =>
        if c.chat_id = id then { c with last_interaction_date := some d } else c)) =
      (fun c : Canal => c.chat_id == x) := by
    funext cc
    by_cases hcc : cc.chat_id = id <;> simp [Function.comp, hcc]
  rw [hpred]
  cases hf : db.find? (fun c => c.chat_id == x) with
  | none => rfl
  | some cc =>
    have hcx : cc.chat_id = x := by simpa using List.find?_some hf
    have hcid : ¬ cc.chat_id = id := by rw [hcx]; exact h
    simp [hcid]

/-- With the PRIMARY KEY constraint, looking up the key of a row that is in
the table finds exactly that row. -/
theorem find_self (db : DB) (hnd : DBWF db) {c : Canal} (hc : c ∈ db) :
    db.find? (fun r => r.chat_id == c.chat_id) = some c := by
  induction db with
  | nil => cases hc
  | cons a rest ih =>
    have hnd' := List.nodup_cons.mp hnd
    rcases List.mem_cons.mp hc with h | h
    · subst h
      simp [List.find?_cons_of_pos]
    · have hne : ¬ (a.chat_id == c.chat_id) = true := by
        intro he
        exact hnd'.1 ((beq_iff_eq.mp he) ▸ List.mem_map_of_mem Canal.chat_id h)
      rw [List.find?_cons_of_neg rest hne]
      exact ih hnd'.2 h

/-- With the PRIMARY KEY constraint, the lookup of a row's key returns that
row's stored date. -/
theorem get_of_mem (db : DB) (hnd : DBWF db) {c : Canal} (hc : c ∈ db) :
    get_last_interaction_date db c.chat_id = c.last_interaction_date := by
  simp [get_last_interaction_date, find_self db hnd hc]

/-- Behaviour of the dispatcher loop on a snapshot `l` of rows over a live
table `db` that agrees with the snapshot (which is the case at the start of
a run, the snapshot being the table itself).  The loop returns the table
with `today` written into exactly the rows that passed the gate and whose
send succeeded, and calls the transport exactly for the rows that passed
the gate, in order. -/
theorem broadcast_loop_spec (today : String) (tr : Transport) (l : List Canal) :
    ∀ db : DB, (l.map Canal.chat_id).Nodup →
      (∀ c ∈ l, get_last_interaction_date db c.chat_id = c.last_interaction_date) →
      broadcast_loop today tr l db =
        (db.map (fun row =>
            if (l.any (fun c => c.chat_id == row.chat_id && eligibleB today c
                && sendOk tr c.chat_id)) = true
            then { row with last_interaction_date := some today } else row),
         (l.filter (eligibleB today)).map Canal.chat_id) := by
  induction l with
  | nil =>
    intro db _ _
    simp [broadcast_loop]
  | cons c rest ih =>
    intro db hnd hagree
    have hgc : get_last_interaction_date db c.chat_id = c.last_interaction_date :=
      hagree c (List.mem_cons_self c rest)
    have hnd' := List.nodup_cons.mp hnd
    by_cases hskip : c.last_interaction_date = some today
    · have hb : eligibleB today c = false := by simp [eligibleB, hskip]
      rw [broadcast_loop, hgc, if_pos hskip,
        ih db hnd'.2 (fun c2 h2 => hagree c2 (List.mem_cons_of_mem c h2))]
      simp [List.any_cons, List.filter_cons, hb]
    · have hb : eligibleB today c = true := by simp [eligibleB, hskip]
      rw [broadcast_loop, hgc, if_neg hskip]
      cases htr : tr c.chat_id with
      | ok u =>
        have hok : sendOk tr c.chat_id = true := by simp [sendOk, htr]
        have hagree2 : ∀ c2 ∈ rest, get_last_interaction_date
            (update_last_interaction_date db c.chat_id today) c2.chat_id =
              c2.last_interaction_date := by
          intro c2 h2
          have hne : c2.chat_id ≠ c.chat_id := by
            intro he
            exact hnd'.1 (he ▸ List.mem_map_of_mem Canal.chat_id h2)
          rw [get_update_ne db c.chat_id c2.chat_id today hne]
          exact hagree c2 (List.mem_cons_of_mem c h2)
        rw [ih (update_last_interaction_date db c.chat_id today) hnd'.2 hagree2]
        simp only [update_last_interaction_date, List.map_map, List.filter_cons, hb,
          if_true, List.map_cons, Prod.mk.injEq]
        refine ⟨List.map_congr_left ?_, trivial⟩
        intro row hrow
        by_cases hr : row.chat_id = c.chat_id
        · simp [Function.comp, hr, hb, hok, List.any_cons]
        · have hne0 : ¬ c.chat_id = row.chat_id := fun he => hr he.symm
          have hne2 : ¬ (c.chat_id == row.chat_id) = true := by simp [hne0]
          simp [Function.comp, hr, hne2, List.any_cons]
      | error e =>
        have hok : sendOk tr c.chat_id = false := by simp [sendOk, htr]
        rw [ih db hnd'.2 (fun c2 h2 => hagree c2 (List.mem_cons_of_mem c h2))]
        simp [List.any_cons, List.filter_cons, hb, hok]

/-- Closed form of one dispatcher run on a well-formed table: the resulting
table is the row-wise `runRow` image, and the transport is called exactly
for the rows whose stored date differs from `today`, in table order. -/
theorem enviar_spec (clk : Clock) (tr : Transport) (db : DB) (hnd : DBWF db) :
    enviar_mensagem_programada clk tr db =
      (db.map (runRow (dispatcherToday clk) tr),
       (db.filter (eligibleB (dispatcherToday clk))).map Canal.chat_id) := by
  rw [enviar_mensagem_programada, get_canais,
    broadcast_loop_spec (dispatcherToday clk) tr db db hnd
      (fun c hc => get_of_mem db hnd hc)]
  refine congrArg (fun x => (x, _)) ?_
  apply List.map_congr_left
  intro row hrow
  by_cases hcase : eligibleB (dispatcherToday clk) row = true ∧
      sendOk tr row.chat_id = true
  · have hany : (db.any (fun c => c.chat_id == row.chat_id &&
        eligibleB (dispatcherToday clk) c && sendOk tr c.chat_id)) = true := by
      refine List.any_eq_true.mpr ⟨row, hrow, ?_⟩
      simp [hcase.1, hcase.2]
    have helig : row.last_interaction_date ≠ some (dispatcherToday clk) := by
      have := hcase.1
      simpa [eligibleB] using this
    rw [if_pos hany, runRow, if_pos ⟨helig, hcase.2⟩]
  · have hany : (db.any (fun c => c.chat_id == row.chat_id &&
        eligibleB (dispatcherToday clk) c && sendOk tr c.chat_id)) = false := by
      rw [Bool.eq_false_iff]
      intro hc
      obtain ⟨c2, hc2, hp⟩ := List.any_eq_true.mp hc
      have hchat : c2.chat_id = row.chat_id := by
        have := hp
        simp only [Bool.and_eq_true, beq_iff_eq] at this
        exact this.1.1
      have hceq : c2 = row := List.inj_on_of_nodup_map hnd hc2 hrow hchat
      subst hceq
      simp only [Bool.and_eq_true, beq_iff_eq] at hp
      exact hcase ⟨hp.1.2, hp.2⟩
    have hrr : runRow (dispatcherToday clk) tr row = row := by
      rw [runRow, if_neg]
      intro hand
      refine hcase ⟨?_, ?_⟩
      · simp [eligibleB, hand.1]
      · exact hand.2
    rw [hany]
    simp [hrr]

/-- The table after a run is the `runRow` image of the table before it. -/
theorem enviar_db_eq (clk : Clock) (tr : Transport) (db : DB) (hnd : DBWF db) :
    (enviar_mensagem_programada clk tr db).1 =
      db.map (runRow (dispatcherToday clk) tr) := by
  rw [enviar_spec clk tr db hnd]

/-- The transport calls of a run are exactly the gate-passing rows. -/
theorem enviar_attempts_eq (clk : Clock) (tr : Transport) (db : DB) (hnd : DBWF db) :
    (enviar_mensagem_programada clk tr db).2 =
      (db.filter (eligibleB (dispatcherToday clk))).map Canal.chat_id := by
  rw [enviar_spec clk tr db hnd]

/-- A registered channel is sent to in a run exactly when it passes the
once-per-day gate. -/
theorem mem_attempts_iff (clk : Clock) (tr : Transport) (db : DB) (hnd : DBWF db)
    {c : Canal} (hc : c ∈ db) :
    c.chat_id ∈ (enviar_mensagem_programada clk tr db).2 ↔
      eligibleB (dispatcherToday clk) c = true := by
  rw [enviar_attempts_eq clk tr db hnd]
  constructor
  · intro h
    obtain ⟨c2, hc2f, he⟩ := List.mem_map.mp h
    obtain ⟨hc2db, hc2e⟩ := List.mem_filter.mp hc2f
    have hceq : c2 = c := List.inj_on_of_nodup_map hnd hc2db hc he
    exact hceq ▸ hc2e
  · intro h
    exact List.mem_map_of_mem Canal.chat_id (List.mem_filter.mpr ⟨hc, h⟩)

/-- The `runRow` image of a well-formed table is well-formed (keys are
untouched). -/
theorem runRow_map_wf (clk : Clock) (tr : Transport) (db : DB) (hnd : DBWF db) :
    DBWF (db.map (runRow (dispatcherToday clk) tr)) := by
  unfold DBWF
  rw [List.map_map]
  have hmc : db.map (Canal.chat_id ∘ runRow (dispatcherToday clk) tr) =
      db.map Canal.chat_id :=
    List.map_congr_left (fun r _ => runRow_chat_id (dispatcherToday clk) tr r)
  rw [hmc]
  exact hnd

/-- After a run, the stored date of a registered channel is given by
`runRow` applied to its old row. -/
theorem get_enviar (clk : Clock) (tr : Transport) (db : DB) (hnd : DBWF db)
    {c : Canal} (hc : c ∈ db) :
    get_last_interaction_date (enviar_mensagem_programada clk tr db).1 c.chat_id =
      (runRow (dispatcherToday clk) tr c).last_interaction_date := by
  rw [enviar_db_eq clk tr db hnd]
  have hmem : runRow (dispatcherToday clk) tr c ∈
      db.map (runRow (dispatcherToday clk) tr) :=
    List.mem_map_of_mem (runRow (dispatcherToday clk) tr) hc
  have hf := find_self (db.map (runRow (dispatcherToday clk) tr))
    (runRow_map_wf clk tr db hnd) hmem
  rw [runRow_chat_id] at hf
  simp [get_last_interaction_date, hf]

/-- The loop embedded as a possibly-raising computation returns normally,
with the same result as the pure loop: every raise site is inside the
`try/except`. -/
theorem broadcast_loopE_ok (today : String) (tr : Transport) (l : List Canal) :
    ∀ db : DB, broadcast_loopE today tr l db = Except.ok (broadcast_loop today tr l db) := by
  induction l with
  | nil => intro db; rfl
  | cons c rest ih =>
    intro db
    rw [broadcast_loopE, broadcast_loop]
    by_cases hskip : get_last_interaction_date db c.chat_id = some today
    · rw [if_pos hskip, if_pos hskip, ih db]
    · rw [if_neg hskip, if_neg hskip]
      cases htr : tr c.chat_id with
      | ok u => rw [ih (update_last_interaction_date db c.chat_id today)]
      | error e => rw [ih db]

/-- Claim C1, counterexample: the dispatcher computes `today` from the
host system's local clock (`datetime.now()` with no tzinfo), not from the
configured America/Sao_Paulo timezone.  At a moment when the host-local
date is 2024-01-02 but the Sao Paulo date is still 2024-01-01, a channel
last broadcast on 2024-01-01 would be gated out under the claim, yet the
code attempts the send. -/
theorem C1_counterexample :
    dispatcherToday { systemLocalDate := "2024-01-02", saoPauloDate := "2024-01-01" } ≠
      Clock.saoPauloDate { systemLocalDate := "2024-01-02", saoPauloDate := "2024-01-01" } ∧
    (enviar_mensagem_programada
        { systemLocalDate := "2024-01-02", saoPauloDate := "2024-01-01" }
        okTransport [⟨100, some "2024-01-01"⟩]).2 = [100] := by
  exact ⟨by decide, rfl⟩

/-- Claim C1 (amended): each dispatcher run computes `today` as the host
system's local calendar date (naive `datetime.now()`), which coincides
with the America/Sao_Paulo date only when the host timezone is the
broadcast timezone, and enforces the once-per-day gate by comparing each
recipient's stored date against that host-local date. -/
theorem C1_amended (clk : Clock) (tr : Transport) (db : DB) (hnd : DBWF db) :
    dispatcherToday clk = clk.systemLocalDate ∧
    (enviar_mensagem_programada clk tr db).2 =
      (db.filter (eligibleB clk.systemLocalDate)).map Canal.chat_id :=
  ⟨rfl, enviar_attempts_eq clk tr db hnd⟩

/-- Witness for C1_amended at a concrete run. -/
theorem C1_witness :
    dispatcherToday { systemLocalDate := "2024-01-02", saoPauloDate := "2024-01-02" } =
      "2024-01-02" ∧
    (enviar_mensagem_programada
        { systemLocalDate := "2024-01-02", saoPauloDate := "2024-01-02" }
        okTransport [⟨100, some "2024-01-01"⟩]).2 =
      (([⟨100, some "2024-01-01"⟩] : DB).filter (eligibleB "2024-01-02")).map
        Canal.chat_id :=
  C1_amended { systemLocalDate := "2024-01-02", saoPauloDate := "2024-01-02" }
    okTransport [⟨100, some "2024-01-01"⟩] (by decide)

/-- Claim C2: in a dispatcher run over a well-formed table whose stored
dates are not in the future (the spec's own data-model invariant), a send
is attempted for a recipient iff its stored date is absent or strictly
less than today; a recipient whose stored date equals today gets no send
call and its stored date is unchanged. -/
theorem C2_gate (clk : Clock) (tr : Transport) (db : DB) (c : Canal)
    (hnd : DBWF db) (hc : c ∈ db)
    (hpast : notFutureDate (dispatcherToday clk) c.last_interaction_date = true) :
    (c.chat_id ∈ (enviar_mensagem_programada clk tr db).2 ↔
       specEligible (dispatcherToday clk) c.last_interaction_date = true) ∧
    (c.last_interaction_date = some (dispatcherToday clk) →
       c.chat_id ∉ (enviar_mensagem_programada clk tr db).2 ∧
       get_last_interaction_date (enviar_mensagem_programada clk tr db).1 c.chat_id =
         some (dispatcherToday clk)) := by
  constructor
  · rw [mem_attempts_iff clk tr db hnd hc]
    cases hld : c.last_interaction_date with
    | none => simp [eligibleB, specEligible, hld]
    | some d =>
      have hor : dateLt d (dispatcherToday clk) = true ∨ d = dispatcherToday clk := by
        have hp := hpast
        rw [hld] at hp
        simpa [notFutureDate, Bool.or_eq_true] using hp
      constructor
      · intro h
        have hne : ¬ d = dispatcherToday clk := by
          simpa [eligibleB, hld] using h
        rcases hor with h1 | h1
        · simp [specEligible, h1]
        · exact absurd h1 hne
      · intro h
        have hlt : dateLt d (dispatcherToday clk) = true := by
          simpa [specEligible] using h
        have hne : d ≠ dispatcherToday clk := by
          intro he
          rw [he, dateLt_irrefl] at hlt
          exact Bool.false_ne_true hlt
        simp [eligibleB, hld, hne]
  · intro heq
    constructor
    · rw [mem_attempts_iff clk tr db hnd hc]
      simp [eligibleB, heq]
    · rw [get_enviar clk tr db hnd hc, runRow, if_neg]
      · exact heq
      · intro hand
        exact hand.1 heq

/-- Witness for C2_gate at a concrete run: an eligible channel, and the
same channel after its date equals today. -/
theorem C2_witness :
    ((100 : Int) ∈ (enviar_mensagem_programada
        { systemLocalDate := "2024-01-02", saoPauloDate := "2024-01-02" }
        okTransport [⟨100, some "2024-01-01"⟩]).2 ↔
      specEligible "2024-01-02" (some "2024-01-01") = true) ∧
    ((100 : Int) ∉ (enviar_mensagem_programada
        { systemLocalDate := "2024-01-02", saoPauloDate := "2024-01-02" }
        okTransport [⟨100, some "2024-01-02"⟩]).2 ∧
     get_last_interaction_date (enviar_mensagem_programada
        { systemLocalDate := "2024-01-02", saoPauloDate := "2024-01-02" }
        okTransport [⟨100, some "2024-01-02"⟩]).1 100 = some "2024-01-02") := by
  constructor
  · exact (C2_gate { systemLocalDate := "2024-01-02", saoPauloDate := "2024-01-02" }
      okTransport [⟨100, some "2024-01-01"⟩] ⟨100, some "2024-01-01"⟩
      (by decide) (by decide) (by decide)).1
  · exact (C2_gate { systemLocalDate := "2024-01-02", saoPauloDate := "2024-01-02" }
      okTransport [⟨100, some "2024-01-02"⟩] ⟨100, some "2024-01-02"⟩
      (by decide) (by decide) (by decide)).2 rfl

/-- Claim C3: a transport failure for one recipient does not stop the run:
every gate-passing recipient of the table is still attempted, the failed
recipient's stored date is unchanged, and the run completes without
raising (the pure result is the `Except.ok` outcome of the raising-aware
embedding). -/
theorem C3_failure_isolation (clk : Clock) (tr : Transport) (db : DB) (c : Canal)
    (hnd : DBWF db) (hc : c ∈ db) (hfail : sendOk tr c.chat_id = false) :
    (∀ c2 ∈ db, eligibleB (dispatcherToday clk) c2 = true →
       c2.chat_id ∈ (enviar_mensagem_programada clk tr db).2) ∧
    get_last_interaction_date (enviar_mensagem_programada clk tr db).1 c.chat_id =
      c.last_interaction_date ∧
    enviar_mensagem_programadaE clk tr db =
      Except.ok (enviar_mensagem_programada clk tr db) := by
  refine ⟨?_, ?_, ?_⟩
  · intro c2 h2 he
    exact (mem_attempts_iff clk tr db hnd h2).mpr he
  · rw [get_enviar clk tr db hnd hc, runRow, if_neg]
    intro hand
    exact absurd hand.2 (by simp [hfail])
  · exact broadcast_loopE_ok (dispatcherToday clk) tr db db

/-- Witness for C3_failure_isolation: channel 100 fails, the later channel
200 is still attempted, 100 keeps its date, and the run returns normally. -/
theorem C3_witness :
    (200 : Int) ∈ (enviar_mensagem_programada
        { systemLocalDate := "2024-01-02", saoPauloDate := "2024-01-02" }
        (failTransport 100) [⟨100, some "2024-01-01"⟩, ⟨200, none⟩]).2 ∧
    get_last_interaction_date (enviar_mensagem_programada
        { systemLocalDate := "2024-01-02", saoPauloDate := "2024-01-02" }
        (failTransport 100) [⟨100, some "2024-01-01"⟩, ⟨200, none⟩]).1 100 =
      some "2024-01-01" ∧
    enviar_mensagem_programadaE
        { systemLocalDate := "2024-01-02", saoPauloDate := "2024-01-02" }
        (failTransport 100) [⟨100, some "2024-01-01"⟩, ⟨200, none⟩] =
      Except.ok (enviar_mensagem_programada
        { systemLocalDate := "2024-01-02", saoPauloDate := "2024-01-02" }
        (failTransport 100) [⟨100, some "2024-01-01"⟩, ⟨200, none⟩]) := by
  have h := C3_failure_isolation
    { systemLocalDate := "2024-01-02", saoPauloDate := "2024-01-02" }
    (failTransport 100) [⟨100, some "2024-01-01"⟩, ⟨200, none⟩]
    ⟨100, some "2024-01-01"⟩ (by decide) (by decide) (by decide)
  exact ⟨h.1 ⟨200, none⟩ (by decide) (by decide), h.2.1, h.2.2⟩

/-- Claim C4: a recipient whose stored date is absent or differs from
today and whose send succeeds has today as its stored date after the run. -/
theorem C4_success_updates_date (clk : Clock) (tr : Transport) (db : DB) (c : Canal)
    (hnd : DBWF db) (hc : c ∈ db)
    (helig : c.last_interaction_date ≠ some (dispatcherToday clk))
    (hok : sendOk tr c.chat_id = true) :
    get_last_interaction_date (enviar_mensagem_programada clk tr db).1 c.chat_id =
      some (dispatcherToday clk) := by
  rw [get_enviar clk tr db hnd hc, runRow, if_pos ⟨helig, hok⟩]

/-- Witness for C4_success_updates_date at a concrete run. -/
theorem C4_witness :
    get_last_interaction_date (enviar_mensagem_programada
        { systemLocalDate := "2024-01-02", saoPauloDate := "2024-01-02" }
        okTransport [⟨100, some "2024-01-01"⟩, ⟨200, none⟩]).1 200 = some "2024-01-02" :=
  C4_success_updates_date
    { systemLocalDate := "2024-01-02", saoPauloDate := "2024-01-02" }
    okTransport [⟨100, some "2024-01-01"⟩, ⟨200, none⟩] ⟨200, none⟩
    (by decide) (by decide) (by decide) (by decide)

/-- Claim C5: if the welcome send raises, the handler logs and stops:
exactly one send attempt is made, no retry, `add_canal` is never reached,
and the table is unchanged (the channel is not registered). -/
theorem C5_welcome_failure_skips_registration (tr : Transport) (db : DB)
    (chat_id : Int) (hfail : sendOk tr chat_id = false) :
    send_welcome_message tr db chat_id =
      { db := db, sends := [chat_id], registered := [] } := by
  cases htr : tr chat_id with
  | ok u => simp [sendOk, htr] at hfail
  | error e => simp [send_welcome_message, htr]

/-- Witness for C5_welcome_failure_skips_registration: a failing welcome
send leaves the empty store empty and registers nothing. -/
theorem C5_witness :
    send_welcome_message (failTransport 100) [] 100 =
      { db := [], sends := [100], registered := [] } :=
  C5_welcome_failure_skips_registration (failTransport 100) [] 100 (by decide)

/-- Claim C6, counterexample: the handler checks only the NEW status, never
`old_chat_member`, so an event in which the bot was already an
administrator (old status "administrator", new status "administrator" —
not a transition from non-admin into admin) still fires a welcome send,
contradicting "fired only on the transition from non-admin into admin". -/
theorem C6_counterexample :
    (on_chat_member_update 42 okTransport []
      { chat_id := 100, subject_user_id := 42,
        old_status := "administrator", new_status := "administrator" }).sends = [100] := by
  rfl

/-- Claim C6 (amended): the Membership Watcher performs exactly one welcome
send and one registration when a chat-membership-change event has the bot
itself as subject and a new status of administrator or creator, fired
whenever the new status is administrator or creator — regardless of the
old status, which the handler never reads — not only on the transition
from non-admin into admin; any event whose subject is a different user, or
whose new status is not administrator/creator, causes no send, no
registration, and no state change.  The one-send clause, the old-status
independence and the negative-event clause hold for every transport; the
registration equality is stated on the slice where the welcome send
returns normally, the failing slice being claim C5's territory. -/
theorem C6_amended (bot_id : Int) (tr : Transport) (db : DB) (ev : ChatMemberEvent)
    (hsubj : ev.subject_user_id = bot_id)
    (hstat : ev.new_status = "administrator" ∨ ev.new_status = "creator") :
    (on_chat_member_update bot_id tr db ev).sends = [ev.chat_id] ∧
    (sendOk tr ev.chat_id = true →
      (on_chat_member_update bot_id tr db ev).registered = [ev.chat_id] ∧
      (on_chat_member_update bot_id tr db ev).db = add_canal db ev.chat_id) ∧
    (∀ old2 : String, on_chat_member_update bot_id tr db
        { ev with old_status := old2 } = on_chat_member_update bot_id tr db ev) ∧
    (∀ ev2 : ChatMemberEvent, ev2.subject_user_id ≠ bot_id ∨
        (ev2.new_status ≠ "administrator" ∧ ev2.new_status ≠ "creator") →
      on_chat_member_update bot_id tr db ev2 =
        { db := db, sends := [], registered := [] }) := by
  have hpos : on_chat_member_update bot_id tr db ev =
      send_welcome_message tr db ev.chat_id := by
    unfold on_chat_member_update
    rw [if_pos hsubj, if_pos hstat]
  refine ⟨?_, ?_, ?_, ?_⟩
  · rw [hpos]
    cases htr : tr ev.chat_id with
    | ok u => simp [send_welcome_message, htr]
    | error e => simp [send_welcome_message, htr]
  · intro hok
    have hsend : send_welcome_message tr db ev.chat_id =
        { db := add_canal db ev.chat_id, sends := [ev.chat_id],
          registered := [ev.chat_id] } := by
      cases htr : tr ev.chat_id with
      | ok u => simp [send_welcome_message, htr]
      | error e => simp [sendOk, htr] at hok
    rw [hpos, hsend]
    exact ⟨rfl, rfl⟩
  · intro old2
    cases ev
    rfl
  · intro ev2 h
    unfold on_chat_member_update
    by_cases hs : ev2.subject_user_id = bot_id
    · rcases h with h | h
      · exact absurd hs h
      · rw [if_pos hs, if_neg]
        intro hor
        rcases hor with h1 | h1
        · exact h.1 h1
        · exact h.2 h1
    · rw [if_neg hs]

/-- Witness for C6_amended: a member-to-administrator promotion of the bot
sends one welcome, registers once, behaves identically whatever the old
status, an event about a different user does nothing, and one send call is
still made when the transport raises. -/
theorem C6_witness :
    (on_chat_member_update 42 okTransport []
      ⟨100, 42, "member", "administrator"⟩).sends = [100] ∧
    (on_chat_member_update 42 okTransport []
      ⟨100, 42, "member", "administrator"⟩).registered = [100] ∧
    (on_chat_member_update 42 okTransport []
      ⟨100, 42, "member", "administrator"⟩).db = add_canal [] 100 ∧
    on_chat_member_update 42 okTransport []
      ⟨100, 42, "creator", "administrator"⟩ =
      on_chat_member_update 42 okTransport []
        ⟨100, 42, "member", "administrator"⟩ ∧
    on_chat_member_update 42 okTransport []
      ⟨100, 7, "member", "administrator"⟩ =
      { db := [], sends := [], registered := [] } ∧
    (on_chat_member_update 42 (failTransport 100) []
      ⟨100, 42, "member", "administrator"⟩).sends = [100] := by
  have h := C6_amended 42 okTransport []
    ⟨100, 42, "member", "administrator"⟩ (by decide) (by simp)
  have h2 := C6_amended 42 (failTransport 100) []
    ⟨100, 42, "member", "administrator"⟩ (by decide) (by simp)
  refine ⟨h.1, (h.2.1 (by decide)).1, (h.2.1 (by decide)).2,
    h.2.2.1 "creator", ?_, h2.1⟩
  exact h.2.2.2 ⟨100, 7, "member", "administrator"⟩ (by simp)

/-- Claim C7: `add_canal` is idempotent: two registrations of the same id
leave exactly one row with that id in a well-formed table, and registering
an already-known channel is a no-op (so no error, and the stored date of
that channel is untouched). -/
theorem C7_register_idempotent (db : DB) (id : Int) (hnd : DBWF db) :
    ((add_canal (add_canal db id) id).map Canal.chat_id).count id = 1 ∧
    (id ∈ db.map Canal.chat_id → add_canal db id = db) := by
  have hnoop : ∀ db2 : DB, id ∈ db2.map Canal.chat_id → add_canal db2 id = db2 := by
    intro db2 hmem
    have hany : (db2.any (fun c => c.chat_id == id)) = true := by
      obtain ⟨c, hcdb, he⟩ := List.mem_map.mp hmem
      exact List.any_eq_true.mpr ⟨c, hcdb, by simp [he]⟩
    rw [add_canal, if_pos hany]
  refine ⟨?_, hnoop db⟩
  by_cases hmem : id ∈ db.map Canal.chat_id
  · rw [hnoop db hmem, hnoop db hmem]
    exact List.count_eq_one_of_mem hnd hmem
  · have hany : (db.any (fun c => c.chat_id == id)) = false := by
      rw [Bool.eq_false_iff]
      intro h
      obtain ⟨c, hcdb, he⟩ := List.any_eq_true.mp h
      exact hmem (beq_iff_eq.mp he ▸ List.mem_map_of_mem Canal.chat_id hcdb)
    have h1 : add_canal db id = db ++ [⟨id, none⟩] := by
      rw [add_canal, if_neg (by simp [hany])]
    have hmem2 : id ∈ ((db ++ [⟨id, none⟩] : DB).map Canal.chat_id) := by simp
    have h2 := hnoop (db ++ [⟨id, none⟩]) hmem2
    rw [h1, h2, List.map_append, List.count_append]
    simp [List.count_eq_zero_of_not_mem hmem]

/-- Witness for C7_register_idempotent on a store already holding the id. -/
theorem C7_witness :
    ((add_canal (add_canal [⟨5, some "2024-01-01"⟩] 5) 5).map Canal.chat_id).count 5 = 1 ∧
    add_canal [⟨5, some "2024-01-01"⟩] 5 = [⟨5, some "2024-01-01"⟩] := by
  have h := C7_register_idempotent [⟨5, some "2024-01-01"⟩] 5 (by decide)
  exact ⟨h.1, h.2 (by decide)⟩

/-- Claim C8: a dispatcher run never inserts or deletes rows (the key
column is preserved exactly); the table after the run is the row-wise
`runRow` image of the table before, and `runRow` changes nothing on a row
whose send failed or that was gated out — only the date field of rows with
a successful send in that run is modified. -/
theorem C8_frame (clk : Clock) (tr : Transport) (db : DB) (hnd : DBWF db) :
    ((enviar_mensagem_programada clk tr db).1.map Canal.chat_id =
      db.map Canal.chat_id) ∧
    (enviar_mensagem_programada clk tr db).1 =
      db.map (runRow (dispatcherToday clk) tr) ∧
    (∀ c : Canal, sendOk tr c.chat_id = false ∨
        c.last_interaction_date = some (dispatcherToday clk) →
      runRow (dispatcherToday clk) tr c = c) := by
  refine ⟨?_, enviar_db_eq clk tr db hnd, ?_⟩
  · rw [enviar_db_eq clk tr db hnd, List.map_map]
    exact List.map_congr_left (fun r _ => runRow_chat_id (dispatcherToday clk) tr r)
  · intro c h
    rw [runRow, if_neg]
    intro hand
    rcases h with h | h
    · exact absurd hand.2 (by simp [h])
    · exact hand.1 h

/-- Witness for C8_frame: a run with one failing channel preserves keys,
equals the `runRow` image, and leaves gated and failed rows unchanged. -/
theorem C8_witness :
    ((enviar_mensagem_programada
        { systemLocalDate := "2024-01-02", saoPauloDate := "2024-01-02" }
        (failTransport 200) [⟨100, some "2024-01-01"⟩, ⟨200, none⟩]).1.map
          Canal.chat_id =
      ([⟨100, some "2024-01-01"⟩, ⟨200, none⟩] : DB).map Canal.chat_id) ∧
    (enviar_mensagem_programada
        { systemLocalDate := "2024-01-02", saoPauloDate := "2024-01-02" }
        (failTransport 200) [⟨100, some "2024-01-01"⟩, ⟨200, none⟩]).1 =
      ([⟨100, some "2024-01-01"⟩, ⟨200, none⟩] : DB).map
        (runRow "2024-01-02" (failTransport 200)) ∧
    runRow "2024-01-02" (failTransport 200) ⟨200, none⟩ = ⟨200, none⟩ := by
  have h := C8_frame { systemLocalDate := "2024-01-02", saoPauloDate := "2024-01-02" }
    (failTransport 200) [⟨100, some "2024-01-01"⟩, ⟨200, none⟩] (by decide)
  exact ⟨h.1, h.2.1, h.2.2 ⟨200, none⟩ (by decide)⟩

/-- Claim C9: updating the date of a channel id that is not in the store
is a silent no-op: no error (the function is total) and the store is
completely unchanged. -/
theorem C9_unknown_update_noop (db : DB) (id : Int) (d : String)
    (h : id ∉ db.map Canal.chat_id) :
    update_last_interaction_date db id d = db := by
  rw [update_last_interaction_date]
  have hrows : ∀ c ∈ db,
      (if c.chat_id = id then { c with last_interaction_date := some d } else c) = c := by
    intro c hc
    rw [if_neg]
    intro he
    exact h (he ▸ List.mem_map_of_mem Canal.chat_id hc)
  rw [List.map_congr_left hrows]
  simp

/-- Witness for C9_unknown_update_noop on a store without the id. -/
theorem C9_witness :
    update_last_interaction_date [⟨100, some "2024-01-01"⟩, ⟨200, none⟩] 999
      "2024-01-02" = [⟨100, some "2024-01-01"⟩, ⟨200, none⟩] :=
  C9_unknown_update_noop [⟨100, some "2024-01-01"⟩, ⟨200, none⟩] 999 "2024-01-02"
    (by decide)

/-- Claim C10: beyond the startup presence check, `ADMIN_ID` influences no
behavior: two processes whose configurations differ only in which nonzero
admin id is set handle every event stream identically (same store, same
sends). -/
theorem C10_admin_id_unused (cfg cfg2 : Config) (bot_id : Int) (tr : Transport)
    (db0 : DB) (events : List SysEvent)
    (htok : cfg.bot_token = cfg2.bot_token)
    (h1 : cfg.admin_id ≠ 0) (h2 : cfg2.admin_id ≠ 0) :
    runSystem cfg bot_id tr db0 events = runSystem cfg2 bot_id tr db0 events := by
  have e1 : decide (cfg.admin_id ≠ 0) = true := decide_eq_true h1
  have e2 : decide (cfg2.admin_id ≠ 0) = true := decide_eq_true h2
  unfold runSystem configOk
  rw [htok, e1, e2]

/-- Witness for C10_admin_id_unused: admin ids 1 and 5 give identical runs
on a broadcast firing plus a membership event. -/
theorem C10_witness :
    runSystem { bot_token := some "tok", admin_id := 1 } 42 okTransport
      [⟨100, some "2024-01-01"⟩]
      [SysEvent.broadcast ⟨"2024-01-02", "2024-01-02"⟩,
       SysEvent.member ⟨300, 42, "member", "administrator"⟩] =
    runSystem { bot_token := some "tok", admin_id := 5 } 42 okTransport
      [⟨100, some "2024-01-01"⟩]
      [SysEvent.broadcast ⟨"2024-01-02", "2024-01-02"⟩,
       SysEvent.member ⟨300, 42, "member", "administrator"⟩] :=
  C10_admin_id_unused { bot_token := some "tok", admin_id := 1 }
    { bot_token := some "tok", admin_id := 5 } 42 okTransport
    [⟨100, some "2024-01-01"⟩]
    [SysEvent.broadcast ⟨"2024-01-02", "2024-01-02"⟩,
     SysEvent.member ⟨300, 42, "member", "administrator"⟩]
    rfl (by decide) (by decide)

end BotLista
